import Mathlib

/-!
Shallow embedding of `src/form.py` (a bulk web-form submission pipeline) and
proofs of the specification claims about it.

Modelling conventions:
* The merged view of the `.env` file and the process environment is a function
  `String → Option String` (`some v` when the key is set).
* Python `dict`s are modelled as association lists built by appending each
  insertion; lookup (`dget`) takes the *last* binding of a key, which matches
  the value a Python dict holds after the same sequence of assignments.
* Network effects are abstracted by an oracle `post : Nat → PostOutcome`
  giving the outcome of each POST attempt (a received HTTP response, or a
  transport-level exception carrying its message text); randomness of
  username generation is an oracle `users : Nat → String`.
* Exceptions are modelled with `Except String`, carrying `str(e)`.
-/

namespace Form

/-!
Python strings are sequences of code points; the string operations the
program uses (`split`, `strip`, `lower`, slicing, `replace`, `in`) are
modelled by structural recursion on the character list of a `String`, which
keeps every definition evaluable.
-/

/-- `s.split(sep)` of Python for a one-character separator, on the
character list. -/
def splitOnChar (sep : Char) : List Char → List (List Char)
  | [] => [[]]
  | c :: rest =>
    if c = sep then [] :: splitOnChar sep rest
    else
      match splitOnChar sep rest with
      | [] => [[c]]
      | g :: gs => (c :: g) :: gs

/-- `s.split(sep)` of Python, producing strings. -/
def strSplitOn (sep : Char) (s : String) : List String :=
  (splitOnChar sep s.data).map String.mk

/-- `s.strip()` of Python: drop leading and trailing whitespace. -/
def trimChars (l : List Char) : List Char :=
  ((l.dropWhile Char.isWhitespace).reverse.dropWhile Char.isWhitespace).reverse

/-- `s.strip()` of Python. -/
def strTrim (s : String) : String :=
  String.mk (trimChars s.data)

/-- `c in s` of Python for a single character. -/
def strContains (s : String) (c : Char) : Bool :=
  s.data.contains c

/-- `s[:n]` of Python: the first `n` code points. -/
def strTake (n : Nat) (s : String) : String :=
  String.mk (s.data.take n)

/-- `s.replace("\n", " ")` of Python: a one-character replacement is a
character-wise map. -/
def replaceNewlines (s : String) : String :=
  String.mk (s.data.map (fun ch => if ch = '\n' then ' ' else ch))

/-- `s.lower()` of Python. -/
def strToLower (s : String) : String :=
  String.mk (s.data.map Char.toLower)

/-- `p.split(sep, 1)` of Python: the part before the first occurrence of
`sep` and everything after it. -/
def splitFirstOn (sep : Char) : List Char → List Char × List Char
  | [] => ([], [])
  | c :: rest =>
    if c = sep then ([], rest)
    else
      let kv := splitFirstOn sep rest
      (c :: kv.1, kv.2)

/-- `getenv(key, default)` of `form.py` for `cast=str`: the merged
environment value, else the default. -/
def getenvStr (env : String → Option String) (key dflt : String) : String :=
  (env key).getD dflt

/-- The truthy string literals accepted by `getenv(..., cast=bool)`:
`str(val).lower() in ["1","true","yes","y","on"]`. -/
def truthy (v : String) : Bool :=
  ["1", "true", "yes", "y", "on"].contains (strToLower v)

/-- `getenv(key, default, bool)`: an absent key yields the default
(`str(True).lower() = "true"` is truthy, `str(False)` is not). -/
def getenvBool (env : String → Option String) (key : String) (dflt : Bool) : Bool :=
  match env key with
  | some v => truthy v
  | none => dflt

/-- `getenv(key, default, int)`: parse failures fall back to the default. -/
def getenvInt (env : String → Option String) (key : String) (dflt : Int) : Int :=
  match env key with
  | some v => (v.toInt?).getD dflt
  | none => dflt

/-- `parse_csv_list` of `form.py`: split on commas, strip, drop empties. -/
def parse_csv_list (s : String) : List String :=
  if s = "" then []
  else ((strSplitOn ',' s).map (fun x => strTrim x)).filter (fun x => x ≠ "")

/-- Name of the `i`-th extra-field key setting. -/
def extraKeyName (i : Nat) : String := "EXTRA_FIELD_" ++ toString i ++ "_KEY"

/-- Name of the `i`-th extra-field value setting. -/
def extraValueName (i : Nat) : String := "EXTRA_FIELD_" ++ toString i ++ "_VALUE"

/-- `extra_fields_from_env` of `form.py`: for `i` in `1..max_n`, read
`EXTRA_FIELD_i_KEY` / `EXTRA_FIELD_i_VALUE` (defaults `""`), and insert the
pair when the key is non-empty.  (In the Python source the guard is
`if k and v is not None`; `v` is never `None` because its default is `""`.)
The dict is modelled as an append list; a duplicate key's effective value is
its last binding, as in a Python dict. -/
def extra_fields_from_env (env : String → Option String) (max_n : Nat) : List (String × String) :=
  (List.range max_n).foldl
    (fun extras j =>
      let k := getenvStr env (extraKeyName (j + 1)) ""
      let v := getenvStr env (extraValueName (j + 1)) ""
      if k ≠ "" then extras ++ [(k, v)] else extras)
    []

/-- The configuration of `form.py` (the module-level settings the claims
need; file paths, delays, timeout and HTTP header strings are omitted as
they are absorbed by the oracles). -/
structure Config where
  FORM_RESPONSE_URL : String
  MAX_RETRIES : Int
  FVV : String
  PAGE_HISTORY : String
  FBZX : String
  PARTIAL_RESPONSE : String
  ENTRY_USERNAME : String
  ENTRY_ADDRESS : String
  ENTRY_YES : String
  ENTRY_DONE : String
  VALUE_YES : String
  VALUE_DONE : String
  ENTRY_YES_SENTINEL : String
  ENTRY_DONE_SENTINEL : String
  SESSION_COOKIES : String
  ADDRESS_KEYS : List String
  CHECKBOX_KEYS : List String
  CHECKBOX_VALUE : String
  AUTO_SENTINEL_FOR_CHECKBOX : Bool
  EXTRA_FIELDS : List (String × String)
deriving DecidableEq

/-- The module-level configuration block of `form.py`, with its defaults. -/
def configFromEnv (env : String → Option String) : Config where
  FORM_RESPONSE_URL := getenvStr env "FORM_RESPONSE_URL" ""
  MAX_RETRIES := getenvInt env "MAX_RETRIES" 2
  FVV := getenvStr env "FVV" "1"
  PAGE_HISTORY := getenvStr env "PAGE_HISTORY" "0"
  FBZX := getenvStr env "FBZX" ""
  PARTIAL_RESPONSE := getenvStr env "PARTIAL_RESPONSE" ""
  ENTRY_USERNAME := getenvStr env "ENTRY_USERNAME" ""
  ENTRY_ADDRESS := getenvStr env "ENTRY_ADDRESS" ""
  ENTRY_YES := getenvStr env "ENTRY_YES" ""
  ENTRY_DONE := getenvStr env "ENTRY_DONE" ""
  VALUE_YES := getenvStr env "VALUE_YES" "Yes"
  VALUE_DONE := getenvStr env "VALUE_DONE" "Done"
  ENTRY_YES_SENTINEL := getenvStr env "ENTRY_YES_SENTINEL" ""
  ENTRY_DONE_SENTINEL := getenvStr env "ENTRY_DONE_SENTINEL" ""
  SESSION_COOKIES := getenvStr env "SESSION_COOKIES" ""
  ADDRESS_KEYS := parse_csv_list (getenvStr env "ADDRESS_KEYS" "")
  CHECKBOX_KEYS := parse_csv_list (getenvStr env "CHECKBOX_KEYS" "")
  CHECKBOX_VALUE := getenvStr env "CHECKBOX_VALUE" "Completed"
  AUTO_SENTINEL_FOR_CHECKBOX := getenvBool env "AUTO_SENTINEL_FOR_CHECKBOX" true
  EXTRA_FIELDS := extra_fields_from_env env 20

/-! ### Python dicts as append lists -/

/-- One dict assignment `payload[k] = v`, modelled by appending the binding. -/
def insertKV (p : List (String × String)) (k v : String) : List (String × String) :=
  p ++ [(k, v)]

/-- Dict lookup: the value of the *last* binding of `k`, as a Python dict
holds after the same assignments. -/
def dget : List (String × String) → String → Option String
  | [], _ => none
  | kv :: rest, k =>
    match dget rest k with
    | some v => some v
    | none => if kv.1 = k then some kv.2 else none

/-- The keys ever assigned (the key set of the corresponding Python dict). -/
def keysOf (p : List (String × String)) : List String :=
  p.map Prod.fst

/-! ### `build_payload`, staged in source order -/

/-- `if ENTRY_USERNAME and username: payload[ENTRY_USERNAME] = username`. -/
def stageUser (c : Config) (username : String) (p : List (String × String)) :
    List (String × String) :=
  if c.ENTRY_USERNAME ≠ "" ∧ username ≠ "" then insertKV p c.ENTRY_USERNAME username else p

/-- `if ENTRY_ADDRESS and address: payload[ENTRY_ADDRESS] = address`. -/
def stageAddr (c : Config) (address : String) (p : List (String × String)) :
    List (String × String) :=
  if c.ENTRY_ADDRESS ≠ "" ∧ address ≠ "" then insertKV p c.ENTRY_ADDRESS address else p

/-- `for k in ADDRESS_KEYS: payload[k] = address`. -/
def addrFold (address : String) (l : List String) (p : List (String × String)) :
    List (String × String) :=
  l.foldl (fun q k => insertKV q k address) p

/-- `for k in CHECKBOX_KEYS: payload[k] = CHECKBOX_VALUE;` plus, when the
toggle is on, `payload[k + "_sentinel"] = ""`. -/
def checkboxFold (toggle : Bool) (val : String) (l : List String)
    (p : List (String × String)) : List (String × String) :=
  l.foldl
    (fun q k =>
      let q1 := insertKV q k val
      if toggle then insertKV q1 (k ++ "_sentinel") "" else q1)
    p

/-- The `ENTRY_YES` block of `build_payload`. -/
def stageYes (c : Config) (p : List (String × String)) : List (String × String) :=
  if c.ENTRY_YES ≠ "" then
    let q := insertKV p c.ENTRY_YES c.VALUE_YES
    if c.ENTRY_YES_SENTINEL ≠ "" then insertKV q c.ENTRY_YES_SENTINEL "" else q
  else p

/-- The `ENTRY_DONE` block of `build_payload`. -/
def stageDone (c : Config) (p : List (String × String)) : List (String × String) :=
  if c.ENTRY_DONE ≠ "" then
    let q := insertKV p c.ENTRY_DONE c.VALUE_DONE
    if c.ENTRY_DONE_SENTINEL ≠ "" then insertKV q c.ENTRY_DONE_SENTINEL "" else q
  else p

/-- `for k, v in EXTRA_FIELDS.items(): payload[k] = v`. -/
def extrasFold (l : List (String × String)) (p : List (String × String)) :
    List (String × String) :=
  l.foldl (fun q kv => insertKV q kv.1 kv.2) p

/-- The effective `partialResponse` value `pr`: the explicit override, or
`[null,null,"<FBZX>"]` derived from a non-empty `FBZX` when the override is
empty. -/
def prVal (c : Config) : String :=
  if c.PARTIAL_RESPONSE = "" ∧ c.FBZX ≠ "" then "[null,null,\"" ++ c.FBZX ++ "\"]"
  else c.PARTIAL_RESPONSE

/-- The protocol-parameter tail of `build_payload`: `fvv`, `pageHistory`,
`fbzx` and `partialResponse`, each inserted only when non-empty. -/
def stageProto (c : Config) (p : List (String × String)) : List (String × String) :=
  let p1 := if c.FVV ≠ "" then insertKV p "fvv" c.FVV else p
  let p2 := if c.PAGE_HISTORY ≠ "" then insertKV p1 "pageHistory" c.PAGE_HISTORY else p1
  let p3 := if c.FBZX ≠ "" then insertKV p2 "fbzx" c.FBZX else p2
  if prVal c ≠ "" then insertKV p3 "partialResponse" (prVal c) else p3

/-- `build_payload(username, address)` of `form.py`: the stages in source
order, starting from the empty dict. -/
def build_payload (c : Config) (username address : String) : List (String × String) :=
  stageProto c
    (extrasFold c.EXTRA_FIELDS
      (stageDone c
        (stageYes c
          (checkboxFold c.AUTO_SENTINEL_FOR_CHECKBOX c.CHECKBOX_VALUE c.CHECKBOX_KEYS
            (addrFold address c.ADDRESS_KEYS
              (stageAddr c address
                (stageUser c username [])))))))

/-! ### `mk_session` cookie parsing -/

/-- `p.split("=", 1)`: the part before the first `=` and everything after. -/
def splitFirstEq (p : String) : String × String :=
  ((splitFirstOn '=' p.data).1.asString, (splitFirstOn '=' p.data).2.asString)

/-- The cookie dict built by `mk_session` from the raw cookie string:
split on `;`, strip, drop empties, then for each piece containing `=`,
`cookie_dict[k.strip()] = v.strip()` with `k, v = p.split("=", 1)`. -/
def mk_session_cookies (s : String) : List (String × String) :=
  let pairs := ((strSplitOn ';' s).map (fun x => strTrim x)).filter (fun x => x ≠ "")
  pairs.foldl
    (fun d p =>
      if strContains p '=' then
        insertKV d (strTrim (splitFirstEq p).1) (strTrim (splitFirstEq p).2)
      else d)
    []

/-- Modelled from the spec's words (for comparison with `mk_session_cookies`):
"splitting the string on every semicolon, trimming each piece, dropping empty
pieces and pieces containing no equals sign, and splitting each remaining
piece on the first equals sign into a trimmed name/value pair". -/
def cookieMappingSpec (s : String) : List (String × String) :=
  ((((strSplitOn ';' s).map (fun x => strTrim x)).filter (fun x => x ≠ "")).filter
      (fun p => strContains p '=')).map
    (fun p => (strTrim (splitFirstEq p).1, strTrim (splitFirstEq p).2))

/-! ### `submit_with_retries` -/

/-- The outcome of one `session.post` call: a received HTTP response
(status code and body text) or a transport-level `requests.RequestException`
carrying its message. -/
inductive PostOutcome where
  | resp (status : Int) (text : String)
  | exc (msg : String)
deriving DecidableEq

deriving instance DecidableEq for Except

/-- What one call of `submit_with_retries` did: how many POST attempts were
performed, the durations passed to `time.sleep` in order, and the outcome —
`Except.ok` the returned response, `Except.error` the message of the raised
exception. -/
structure RetryTrace where
  posts : Nat
  sleeps : List Nat
  result : Except String (Int × String)
deriving DecidableEq

/-- The retry loop body of `submit_with_retries`, over the remaining attempt
numbers, threading `last_exc` (`none` initially).  A response returns at
once; an exception records the message, sleeps `1 + attempt`, and continues;
an exhausted list raises `last_exc or RuntimeError("request failed")`. -/
def submitAttempts (post : Nat → PostOutcome) (lastExc : Option String) :
    List Nat → RetryTrace
  | [] => ⟨0, [], Except.error (lastExc.getD "request failed")⟩
  | a :: rest =>
    match post a with
    | PostOutcome.resp s t => ⟨1, [], Except.ok (s, t)⟩
    | PostOutcome.exc m =>
      let r := submitAttempts post (some m) rest
      ⟨r.posts + 1, (1 + a) :: r.sleeps, r.result⟩

/-- `submit_with_retries(session, payload)` of `form.py`: attempts run over
`range(1, MAX_RETRIES + 1)`; `post a` is the outcome of the POST on attempt
`a`. -/
def submit_with_retries (maxRetries : Int) (post : Nat → PostOutcome) : RetryTrace :=
  submitAttempts post none ((List.range maxRetries.toNat).map (fun j => j + 1))

/-! ### `main` -/

/-- One row of the output CSV (the timestamp column, which only reflects the
wall clock, is omitted).  `status_code` holds the decimal status code or the
error marker string `"ERR"` exactly as the CSV writer renders it. -/
structure Row where
  username : String
  address : String
  status_code : String
  ok : Bool
  resp_snippet : String
deriving DecidableEq

/-- The result of the throttled run: whether the validation gate printed an
error and returned, whether the output CSV was opened, the rows written, and
the total number of POST attempts performed. -/
structure RunResult where
  errorPrinted : Bool
  logOpened : Bool
  rows : List Row
  httpPosts : Nat
deriving DecidableEq

/-- `username = gen_username() if ENTRY_USERNAME else ""`, with the random
generator abstracted by the oracle `users`. -/
def userFor (c : Config) (users : Nat → String) (i : Nat) : String :=
  if c.ENTRY_USERNAME ≠ "" then users i else ""

/-- The row written for one record: the `try` branch on a returned response
(`ok = 200 <= status < 400`, snippet = first 400 characters of the body with
newlines replaced), the `except` branch on an exception (`"ERR"` marker,
snippet = first 400 characters of `str(e)`). -/
def mkRow (username address : String) (res : Except String (Int × String)) : Row :=
  match res with
  | Except.ok (s, t) =>
    ⟨username, address, toString s, decide (200 ≤ s ∧ s < 400),
      replaceNewlines (strTake 400 t)⟩
  | Except.error m => ⟨username, address, "ERR", false, strTake 400 m⟩

/-- The per-record loop of `main`: record `i` uses the attempt oracle
`post i`. -/
def runRows (c : Config) (users : Nat → String) (post : Nat → Nat → PostOutcome) :
    Nat → List String → List Row
  | _, [] => []
  | i, addr :: rest =>
    mkRow (userFor c users i) addr (submit_with_retries c.MAX_RETRIES (post i)).result
      :: runRows c users post (i + 1) rest

/-- Total number of POST attempts performed by the per-record loop. -/
def runPosts (c : Config) (post : Nat → Nat → PostOutcome) : Nat → List String → Nat
  | _, [] => 0
  | i, _ :: rest =>
    (submit_with_retries c.MAX_RETRIES (post i)).posts + runPosts c post (i + 1) rest

/-- The validation gate's second check: at least one of
`ENTRY_USERNAME or ENTRY_ADDRESS or ENTRY_YES or ENTRY_DONE or ADDRESS_KEYS
or CHECKBOX_KEYS or EXTRA_FIELDS` is truthy. -/
def hasFieldIdent (c : Config) : Bool :=
  c.ENTRY_USERNAME != "" || c.ENTRY_ADDRESS != "" || c.ENTRY_YES != "" ||
    c.ENTRY_DONE != "" || !c.ADDRESS_KEYS.isEmpty || !c.CHECKBOX_KEYS.isEmpty ||
    !c.EXTRA_FIELDS.isEmpty

/-- `main()` of `form.py` on an already-read record list: the three
validation checks in source order (each prints an error and returns before
the CSV is opened and before any POST), then the per-record loop. -/
def main (c : Config) (records : List String) (users : Nat → String)
    (post : Nat → Nat → PostOutcome) : RunResult :=
  if c.FORM_RESPONSE_URL = "" then ⟨true, false, [], 0⟩
  else if hasFieldIdent c = false then ⟨true, false, [], 0⟩
  else if records.isEmpty then ⟨true, false, [], 0⟩
  else ⟨false, true, runRows c users post 0 records, runPosts c post 0 records⟩

/-! ### Auxiliary definitions for the proofs -/

/-- The bindings the checkbox loop appends for one key. -/
def cbAdd (toggle : Bool) (val k : String) : List (String × String) :=
  (k, val) :: (if toggle then [(k ++ "_sentinel", "")] else [])

/-- The bindings the checkbox loop appends for the key list `l`. -/
def cbList (toggle : Bool) (val : String) (l : List String) : List (String × String) :=
  l.flatMap (cbAdd toggle val)

/-- The circumstances under which `build_payload` emits a key `k`: one of
the configured field identifiers is non-empty (together with, for the
username and legacy address fields, a non-empty value) and names `k`.  Every
disjunct requires the relevant configuration value to be non-empty. -/
def mayEmit (c : Config) (u a k : String) : Prop :=
  (c.ENTRY_USERNAME ≠ "" ∧ u ≠ "" ∧ k = c.ENTRY_USERNAME) ∨
    (c.ENTRY_ADDRESS ≠ "" ∧ a ≠ "" ∧ k = c.ENTRY_ADDRESS) ∨
    k ∈ c.ADDRESS_KEYS ∨
    k ∈ c.CHECKBOX_KEYS ∨
    (c.AUTO_SENTINEL_FOR_CHECKBOX = true ∧
      ∃ b, b ∈ c.CHECKBOX_KEYS ∧ k = b ++ "_sentinel") ∨
    (c.ENTRY_YES ≠ "" ∧ k = c.ENTRY_YES) ∨
    (c.ENTRY_YES ≠ "" ∧ c.ENTRY_YES_SENTINEL ≠ "" ∧ k = c.ENTRY_YES_SENTINEL) ∨
    (c.ENTRY_DONE ≠ "" ∧ k = c.ENTRY_DONE) ∨
    (c.ENTRY_DONE ≠ "" ∧ c.ENTRY_DONE_SENTINEL ≠ "" ∧ k = c.ENTRY_DONE_SENTINEL) ∨
    (∃ v, (k, v) ∈ c.EXTRA_FIELDS) ∨
    (c.FVV ≠ "" ∧ k = "fvv") ∨
    (c.PAGE_HISTORY ≠ "" ∧ k = "pageHistory") ∨
    (c.FBZX ≠ "" ∧ k = "fbzx") ∨
    ((c.PARTIAL_RESPONSE ≠ "" ∨ c.FBZX ≠ "") ∧ k = "partialResponse")

/-! ### Concrete sample inputs used to instantiate the theorems -/

/-- A configuration with every optional setting at the inert default and no
target URL (only the source defaults for `FVV`, `PAGE_HISTORY`,
`MAX_RETRIES`, the flag values and the checkbox value are kept). -/
def cfgBase : Config where
  FORM_RESPONSE_URL := ""
  MAX_RETRIES := 2
  FVV := "1"
  PAGE_HISTORY := "0"
  FBZX := ""
  PARTIAL_RESPONSE := ""
  ENTRY_USERNAME := ""
  ENTRY_ADDRESS := ""
  ENTRY_YES := ""
  ENTRY_DONE := ""
  VALUE_YES := "Yes"
  VALUE_DONE := "Done"
  ENTRY_YES_SENTINEL := ""
  ENTRY_DONE_SENTINEL := ""
  SESSION_COOKIES := ""
  ADDRESS_KEYS := []
  CHECKBOX_KEYS := []
  CHECKBOX_VALUE := "Completed"
  AUTO_SENTINEL_FOR_CHECKBOX := true
  EXTRA_FIELDS := []

/-- A configuration that passes validation: a URL and one legacy address
field. -/
def cfgRun : Config :=
  { cfgBase with FORM_RESPONSE_URL := "http://example.com/formResponse",
                 ENTRY_ADDRESS := "entry.1798315485" }

/-- A configuration with `FBZX` set and no partial-response override. -/
def cfgFbzx : Config :=
  { cfgRun with FBZX := "xyz" }

/-- A checkbox configuration with ids `A`, `B` and the sentinel toggle on. -/
def cfgCheckbox : Config :=
  { cfgRun with CHECKBOX_KEYS := ["A", "B"] }

/-- A checkbox configuration in which a later-inserted setting (the yes
flag) reuses the checkbox id `A`. -/
def cfgCheckboxClash : Config :=
  { cfgCheckbox with ENTRY_YES := "A" }

/-- A username oracle. -/
def usersW : Nat → String := fun _ => "bebas1234"

/-- A per-attempt POST oracle that fails with a transport error on every
attempt. -/
def postFailW : Nat → PostOutcome := fun a =>
  PostOutcome.exc (if a = 1 then "boom1" else "boom2")

/-- A per-attempt POST oracle that returns a status-200 response at once. -/
def postOkW : Nat → PostOutcome := fun _ => PostOutcome.resp 200 "okbody"

/-- A per-record oracle: the first record hits transport errors on every
attempt, later records get a status-200 response. -/
def postRecW : Nat → Nat → PostOutcome := fun i _ =>
  if i = 0 then PostOutcome.exc "neterr" else PostOutcome.resp 200 "okbody"

/-- An environment in which extra-field indices 1 and 2 configure the same
key `x`, index 1 with no value setting. -/
def envDup : String → Option String := fun s =>
  if s = "EXTRA_FIELD_1_KEY" then some "x"
  else if s = "EXTRA_FIELD_2_KEY" then some "x"
  else if s = "EXTRA_FIELD_2_VALUE" then some "v2"
  else none

/-- An environment configuring one extra field (index 3) with key `k3` and
no value setting. -/
def envOne : String → Option String := fun s =>
  if s = "EXTRA_FIELD_3_KEY" then some "k3" else none

/-! ### Dict lemmas -/

theorem dget_insertKV (p : List (String × String)) (k v k2 : String) :
    dget (insertKV p k v) k2 = if k = k2 then some v else dget p k2 := by
  induction p with
  | nil =>
    by_cases h : k = k2 <;> simp [insertKV, dget, h]
  | cons a rest ih =>
    simp only [insertKV, List.cons_append, List.append_eq, dget] at ih ⊢
    rw [ih]
    by_cases h : k = k2
    · rw [if_pos h, if_pos h]
    · rw [if_neg h, if_neg h]

theorem dget_append (p q : List (String × String)) (k : String) :
    dget (p ++ q) k = match dget q k with | some v => some v | none => dget p k := by
  induction p with
  | nil =>
    simp only [List.nil_append]
    cases hd : dget q k <;> simp [dget, hd]
  | cons a rest ih =>
    simp only [List.cons_append, List.append_eq, dget] at ih ⊢
    rw [ih]
    cases hd : dget q k <;> rfl

theorem dget_eq_none_of_not_mem (p : List (String × String)) (k : String)
    (h : k ∉ keysOf p) : dget p k = none := by
  induction p with
  | nil => rfl
  | cons a rest ih =>
    simp only [keysOf, List.map_cons, List.mem_cons, not_or] at h
    have h2 : dget rest k = none := ih (by simpa [keysOf] using h.2)
    simp only [dget, h2]
    exact if_neg (fun hh => h.1 hh.symm)

theorem keysOf_append (p q : List (String × String)) :
    keysOf (p ++ q) = keysOf p ++ keysOf q := by
  simp [keysOf]

theorem keysOf_insertKV (p : List (String × String)) (k v : String) :
    keysOf (insertKV p k v) = keysOf p ++ [k] := by
  simp [insertKV, keysOf]

/-! ### Fold normal forms -/

/-- A fold that appends `g x` for every element is an append of the
flattened additions. -/
theorem foldl_append_flat {α β : Type} (g : α → List β) (l : List α) (p : List β) :
    l.foldl (fun q x => q ++ g x) p = p ++ l.flatMap g := by
  induction l generalizing p with
  | nil => simp
  | cons a rest ih => simp [ih, List.flatMap_cons]

theorem flatMap_singleton_pair (address : String) (l : List String) :
    l.flatMap (fun k => ([(k, address)] : List (String × String))) =
      l.map (fun k => (k, address)) := by
  induction l with
  | nil => rfl
  | cons a rest ih => simp [List.flatMap_cons, ih]

theorem addrFold_eq_append (address : String) (l : List String)
    (p : List (String × String)) :
    addrFold address l p = p ++ l.map (fun k => (k, address)) := by
  have h := foldl_append_flat (fun k => [(k, address)]) l p
  simp only [addrFold, insertKV]
  rw [h, flatMap_singleton_pair]

theorem flatMap_pure {α : Type} (l : List α) : l.flatMap (fun x => [x]) = l := by
  induction l with
  | nil => rfl
  | cons a rest ih => simp [List.flatMap_cons, ih]

theorem extrasFold_eq_append (l p : List (String × String)) :
    extrasFold l p = p ++ l := by
  have h := foldl_append_flat (fun kv : String × String => [kv]) l p
  simp only [extrasFold, insertKV]
  rw [h, flatMap_pure]

theorem checkboxFold_eq_append (toggle : Bool) (val : String) (l : List String)
    (p : List (String × String)) :
    checkboxFold toggle val l p = p ++ cbList toggle val l := by
  have hbody :
      (fun (q : List (String × String)) k =>
          let q1 := insertKV q k val
          if toggle then insertKV q1 (k ++ "_sentinel") "" else q1) =
        fun q k => q ++ cbAdd toggle val k := by
    funext q k
    cases toggle <;> simp [insertKV, cbAdd]
  rw [checkboxFold, hbody, foldl_append_flat]
  rfl

theorem foldl_ite_append {α β : Type} (P : α → Bool) (f : α → β) (l : List α)
    (acc : List β) :
    l.foldl (fun d x => if P x then d ++ [f x] else d) acc = acc ++ (l.filter P).map f := by
  induction l generalizing acc with
  | nil => simp
  | cons a rest ih =>
    simp only [List.foldl_cons, List.filter_cons]
    by_cases h : P a = true <;> simp [h, ih]

/-! ### Key membership through the payload stages -/

theorem mem_keysOf_iff_exists (l : List (String × String)) (k : String) :
    k ∈ keysOf l ↔ ∃ v, (k, v) ∈ l := by
  simp only [keysOf, List.mem_map]
  constructor
  · rintro ⟨x, hx, he⟩
    refine ⟨x.2, ?_⟩
    rw [← he]
    simpa using hx
  · rintro ⟨v, hv⟩
    exact ⟨(k, v), hv, rfl⟩

theorem mem_keysOf_stageUser (c : Config) (u : String) (p : List (String × String))
    (k : String) :
    k ∈ keysOf (stageUser c u p) ↔
      k ∈ keysOf p ∨ (c.ENTRY_USERNAME ≠ "" ∧ u ≠ "" ∧ k = c.ENTRY_USERNAME) := by
  unfold stageUser
  split_ifs with h
  · rw [keysOf_insertKV]
    simp only [List.mem_append, List.mem_singleton]
    tauto
  · tauto

theorem mem_keysOf_stageAddr (c : Config) (a : String) (p : List (String × String))
    (k : String) :
    k ∈ keysOf (stageAddr c a p) ↔
      k ∈ keysOf p ∨ (c.ENTRY_ADDRESS ≠ "" ∧ a ≠ "" ∧ k = c.ENTRY_ADDRESS) := by
  unfold stageAddr
  split_ifs with h
  · rw [keysOf_insertKV]
    simp only [List.mem_append, List.mem_singleton]
    tauto
  · tauto

theorem mem_keysOf_addrFold (address : String) (l : List String)
    (p : List (String × String)) (k : String) :
    k ∈ keysOf (addrFold address l p) ↔ k ∈ keysOf p ∨ k ∈ l := by
  rw [addrFold_eq_append, keysOf_append]
  simp [keysOf, List.mem_append]

theorem mem_keysOf_cbAdd (toggle : Bool) (val a k : String) :
    k ∈ keysOf (cbAdd toggle val a) ↔ k = a ∨ (toggle = true ∧ k = a ++ "_sentinel") := by
  cases toggle <;> simp [cbAdd, keysOf]

theorem mem_keysOf_cbList (toggle : Bool) (val : String) (l : List String) (k : String) :
    k ∈ keysOf (cbList toggle val l) ↔
      k ∈ l ∨ (toggle = true ∧ ∃ b, b ∈ l ∧ k = b ++ "_sentinel") := by
  induction l with
  | nil => simp [cbList, keysOf]
  | cons a rest ih =>
    have hsplit : cbList toggle val (a :: rest) = cbAdd toggle val a ++ cbList toggle val rest := by
      simp [cbList, List.flatMap_cons]
    rw [hsplit, keysOf_append, List.mem_append, ih, mem_keysOf_cbAdd]
    simp only [List.mem_cons]
    constructor
    · rintro ((h | ⟨ht, h⟩) | (h | ⟨ht, b, hb, he⟩))
      · exact Or.inl (Or.inl h)
      · exact Or.inr ⟨ht, a, Or.inl rfl, h⟩
      · exact Or.inl (Or.inr h)
      · exact Or.inr ⟨ht, b, Or.inr hb, he⟩
    · rintro ((h | h) | ⟨ht, b, (hb | hb), he⟩)
      · exact Or.inl (Or.inl h)
      · exact Or.inr (Or.inl h)
      · exact Or.inl (Or.inr ⟨ht, by rw [he, hb]⟩)
      · exact Or.inr (Or.inr ⟨ht, b, hb, he⟩)

theorem mem_keysOf_checkboxFold (toggle : Bool) (val : String) (l : List String)
    (p : List (String × String)) (k : String) :
    k ∈ keysOf (checkboxFold toggle val l p) ↔
      k ∈ keysOf p ∨ k ∈ l ∨ (toggle = true ∧ ∃ b, b ∈ l ∧ k = b ++ "_sentinel") := by
  rw [checkboxFold_eq_append, keysOf_append]
  simp [List.mem_append, mem_keysOf_cbList]

theorem mem_keysOf_stageYes (c : Config) (p : List (String × String)) (k : String) :
    k ∈ keysOf (stageYes c p) ↔
      k ∈ keysOf p ∨ (c.ENTRY_YES ≠ "" ∧ k = c.ENTRY_YES) ∨
        (c.ENTRY_YES ≠ "" ∧ c.ENTRY_YES_SENTINEL ≠ "" ∧ k = c.ENTRY_YES_SENTINEL) := by
  unfold stageYes
  split_ifs with h1 h2
  · rw [keysOf_insertKV, keysOf_insertKV]
    simp only [List.mem_append, List.mem_singleton]
    tauto
  · rw [keysOf_insertKV]
    simp only [List.mem_append, List.mem_singleton]
    tauto
  · tauto

theorem mem_keysOf_stageDone (c : Config) (p : List (String × String)) (k : String) :
    k ∈ keysOf (stageDone c p) ↔
      k ∈ keysOf p ∨ (c.ENTRY_DONE ≠ "" ∧ k = c.ENTRY_DONE) ∨
        (c.ENTRY_DONE ≠ "" ∧ c.ENTRY_DONE_SENTINEL ≠ "" ∧ k = c.ENTRY_DONE_SENTINEL) := by
  unfold stageDone
  split_ifs with h1 h2
  · rw [keysOf_insertKV, keysOf_insertKV]
    simp only [List.mem_append, List.mem_singleton]
    tauto
  · rw [keysOf_insertKV]
    simp only [List.mem_append, List.mem_singleton]
    tauto
  · tauto

theorem mem_keysOf_extrasFold (l p : List (String × String)) (k : String) :
    k ∈ keysOf (extrasFold l p) ↔ k ∈ keysOf p ∨ ∃ v, (k, v) ∈ l := by
  rw [extrasFold_eq_append, keysOf_append]
  simp [List.mem_append, mem_keysOf_iff_exists]

theorem string_append_ne_empty (s t : String) (h : s ≠ "") : s ++ t ≠ "" := by
  intro he
  apply h
  have hl := congrArg String.length he
  rw [String.length_append] at hl
  have h0 : ("" : String).length = 0 := rfl
  rw [h0] at hl
  have : s.length = 0 := by omega
  cases s with
  | mk l =>
    cases l with
    | nil => rfl
    | cons a as => simp [String.length, List.length] at this

theorem prVal_ne_empty_iff (c : Config) :
    prVal c ≠ "" ↔ (c.PARTIAL_RESPONSE ≠ "" ∨ c.FBZX ≠ "") := by
  unfold prVal
  split_ifs with h
  · simp only [ne_eq]
    constructor
    · intro _
      exact Or.inr h.2
    · intro _
      exact string_append_ne_empty ("[null,null,\"" ++ c.FBZX) "\"]"
        (string_append_ne_empty "[null,null,\"" c.FBZX (by decide))
  · rw [not_and_or, not_not] at h
    constructor
    · intro hp
      exact Or.inl hp
    · rintro (hp | hf)
      · exact hp
      · rcases h with h | h
        · exact h
        · exact absurd h hf

theorem mem_keysOf_stageProto (c : Config) (p : List (String × String)) (k : String) :
    k ∈ keysOf (stageProto c p) ↔
      k ∈ keysOf p ∨ (c.FVV ≠ "" ∧ k = "fvv") ∨
        (c.PAGE_HISTORY ≠ "" ∧ k = "pageHistory") ∨ (c.FBZX ≠ "" ∧ k = "fbzx") ∨
        ((c.PARTIAL_RESPONSE ≠ "" ∨ c.FBZX ≠ "") ∧ k = "partialResponse") := by
  rw [← prVal_ne_empty_iff]
  unfold stageProto
  split_ifs with h1 h2 h3 h4 <;>
    simp only [keysOf_insertKV, List.mem_append, List.mem_singleton] <;> tauto

theorem mem_keysOf_build_payload (c : Config) (u a k : String) :
    k ∈ keysOf (build_payload c u a) ↔ mayEmit c u a k := by
  unfold build_payload mayEmit
  rw [mem_keysOf_stageProto, mem_keysOf_extrasFold, mem_keysOf_stageDone,
    mem_keysOf_stageYes, mem_keysOf_checkboxFold, mem_keysOf_addrFold,
    mem_keysOf_stageAddr, mem_keysOf_stageUser]
  simp only [keysOf, List.map_nil, List.not_mem_nil, false_or, or_assoc]

/-! ### Lookup preservation through the later payload stages -/

theorem dget_insert_ne (p : List (String × String)) (k v k2 : String) (h : k ≠ k2) :
    dget (insertKV p k v) k2 = dget p k2 := by
  rw [dget_insertKV, if_neg h]

theorem dget_stageYes_ne (c : Config) (p : List (String × String)) (k : String)
    (h1 : c.ENTRY_YES ≠ k) (h2 : c.ENTRY_YES_SENTINEL ≠ k) :
    dget (stageYes c p) k = dget p k := by
  unfold stageYes
  split_ifs <;> simp [dget_insertKV, h1, h2]

theorem dget_stageDone_ne (c : Config) (p : List (String × String)) (k : String)
    (h1 : c.ENTRY_DONE ≠ k) (h2 : c.ENTRY_DONE_SENTINEL ≠ k) :
    dget (stageDone c p) k = dget p k := by
  unfold stageDone
  split_ifs <;> simp [dget_insertKV, h1, h2]

theorem dget_extrasFold_ne (l p : List (String × String)) (k : String)
    (h : ∀ v, (k, v) ∉ l) : dget (extrasFold l p) k = dget p k := by
  rw [extrasFold_eq_append, dget_append,
    dget_eq_none_of_not_mem l k (fun hm => by
      rcases (mem_keysOf_iff_exists l k).1 hm with ⟨v, hv⟩
      exact h v hv)]

theorem dget_stageProto_ne (c : Config) (p : List (String × String)) (k : String)
    (h1 : k ≠ "fvv") (h2 : k ≠ "pageHistory") (h3 : k ≠ "fbzx")
    (h4 : k ≠ "partialResponse") : dget (stageProto c p) k = dget p k := by
  unfold stageProto
  split_ifs <;>
    simp [dget_insertKV, Ne.symm h1, Ne.symm h2, Ne.symm h3, Ne.symm h4]

theorem dget_stageProto_prkey (c : Config) (p : List (String × String))
    (h : prVal c ≠ "") :
    dget (stageProto c p) "partialResponse" = some (prVal c) := by
  unfold stageProto
  rw [if_pos h, dget_insertKV, if_pos rfl]

/-! ### Run-driver lemmas -/

theorem runRows_length (c : Config) (users : Nat → String)
    (post : Nat → Nat → PostOutcome) :
    ∀ (l : List String) (i : Nat), (runRows c users post i l).length = l.length := by
  intro l
  induction l with
  | nil => intro i; rfl
  | cons a rest ih => intro i; simp [runRows, ih]

theorem runRows_get (c : Config) (users : Nat → String)
    (post : Nat → Nat → PostOutcome) :
    ∀ (l : List String) (i j : Nat) (h : j < l.length)
      (h2 : j < (runRows c users post i l).length),
      (runRows c users post i l).get ⟨j, h2⟩ =
        mkRow (userFor c users (i + j)) (l.get ⟨j, h⟩)
          (submit_with_retries c.MAX_RETRIES (post (i + j))).result := by
  intro l
  induction l with
  | nil => intro i j h; exact absurd h (by simp)
  | cons a rest ih =>
    intro i j h h2
    cases j with
    | zero => simp [runRows]
    | succ n =>
      have hn : n < rest.length := by simpa using h
      have hn2 : n < (runRows c users post (i + 1) rest).length := by
        rw [runRows_length]; exact hn
      have := ih (i + 1) n hn hn2
      simp only [runRows, List.get_cons_succ, List.length_cons] at this ⊢
      rw [show i + (n + 1) = i + 1 + n from by omega]
      exact this

theorem main_pass (c : Config) (records : List String) (users : Nat → String)
    (post : Nat → Nat → PostOutcome) (h1 : c.FORM_RESPONSE_URL ≠ "")
    (h2 : hasFieldIdent c = true) (h3 : records ≠ []) :
    main c records users post =
      ⟨false, true, runRows c users post 0 records, runPosts c post 0 records⟩ := by
  unfold main
  rw [if_neg h1, if_neg (by simp [h2]), if_neg (by simp [h3])]

theorem mkRow_address (u addr : String) (res : Except String (Int × String)) :
    (mkRow u addr res).address = addr := by
  cases res with
  | ok v => cases v; rfl
  | error m => rfl

theorem runRows_spec (c : Config) (users : Nat → String)
    (post : Nat → Nat → PostOutcome) (records : List String) :
    (runRows c users post 0 records).length = records.length ∧
      ∀ j (hj : j < records.length) (hj2 : j < (runRows c users post 0 records).length),
        ((runRows c users post 0 records).get ⟨j, hj2⟩).address = records.get ⟨j, hj⟩ ∧
          ∀ m, (submit_with_retries c.MAX_RETRIES (post j)).result = Except.error m →
            ((runRows c users post 0 records).get ⟨j, hj2⟩).status_code = "ERR" ∧
              ((runRows c users post 0 records).get ⟨j, hj2⟩).ok = false ∧
              ((runRows c users post 0 records).get ⟨j, hj2⟩).resp_snippet =
                strTake 400 m := by
  refine ⟨runRows_length c users post records 0, ?_⟩
  intro j hj hj2
  have hg := runRows_get c users post records 0 j hj hj2
  rw [Nat.zero_add] at hg
  rw [hg]
  refine ⟨mkRow_address _ _ _, ?_⟩
  intro m hres
  rw [hres]
  exact ⟨rfl, rfl, rfl⟩

theorem runRows_ok_spec (c : Config) (users : Nat → String)
    (post : Nat → Nat → PostOutcome) (records : List String) (j : Nat)
    (hj : j < records.length) (hj2 : j < (runRows c users post 0 records).length) :
    (∀ s t, (submit_with_retries c.MAX_RETRIES (post j)).result = Except.ok (s, t) →
        (((runRows c users post 0 records).get ⟨j, hj2⟩).ok = true ↔
          (200 ≤ s ∧ s < 400)) ∧
          ((runRows c users post 0 records).get ⟨j, hj2⟩).status_code = toString s) ∧
      ∀ m, (submit_with_retries c.MAX_RETRIES (post j)).result = Except.error m →
        ((runRows c users post 0 records).get ⟨j, hj2⟩).ok = false := by
  have hg := runRows_get c users post records 0 j hj hj2
  rw [Nat.zero_add] at hg
  rw [hg]
  constructor
  · intro s t hres
    rw [hres]
    exact ⟨decide_eq_true_iff, rfl⟩
  · intro m hres
    rw [hres]
    rfl

/-- Lookups of a key not touched after the checkbox loop see the payload as
it stood after the checkbox loop. -/
theorem dget_build_payload_late (c : Config) (u a k : String)
    (h1 : k ≠ "fvv") (h2 : k ≠ "pageHistory") (h3 : k ≠ "fbzx")
    (h4 : k ≠ "partialResponse") (h5 : ∀ v, (k, v) ∉ c.EXTRA_FIELDS)
    (h6 : c.ENTRY_DONE ≠ k) (h7 : c.ENTRY_DONE_SENTINEL ≠ k)
    (h8 : c.ENTRY_YES ≠ k) (h9 : c.ENTRY_YES_SENTINEL ≠ k) :
    dget (build_payload c u a) k =
      dget (checkboxFold c.AUTO_SENTINEL_FOR_CHECKBOX c.CHECKBOX_VALUE
        c.CHECKBOX_KEYS (addrFold a c.ADDRESS_KEYS
          (stageAddr c a (stageUser c u [])))) k := by
  unfold build_payload
  rw [dget_stageProto_ne c _ k h1 h2 h3 h4, dget_extrasFold_ne _ _ k h5,
    dget_stageDone_ne c _ k h6 h7, dget_stageYes_ne c _ k h8 h9]

/-- Splitting off the last index of `extra_fields_from_env`. -/
theorem extra_fields_from_env_succ (env : String → Option String) (m : Nat) :
    extra_fields_from_env env (m + 1) =
      extra_fields_from_env env m ++
        (if getenvStr env (extraKeyName (m + 1)) "" ≠ "" then
          [(getenvStr env (extraKeyName (m + 1)) "",
            getenvStr env (extraValueName (m + 1)) "")]
        else []) := by
  unfold extra_fields_from_env
  rw [List.range_succ, List.foldl_append, List.foldl_cons, List.foldl_nil]
  show (if getenvStr env (extraKeyName (m + 1)) "" ≠ "" then
      (List.range m).foldl
        (fun extras j =>
          let k := getenvStr env (extraKeyName (j + 1)) ""
          let v := getenvStr env (extraValueName (j + 1)) ""
          if k ≠ "" then extras ++ [(k, v)] else extras) [] ++
        [(getenvStr env (extraKeyName (m + 1)) "",
          getenvStr env (extraValueName (m + 1)) "")]
    else
      (List.range m).foldl
        (fun extras j =>
          let k := getenvStr env (extraKeyName (j + 1)) ""
          let v := getenvStr env (extraValueName (j + 1)) ""
          if k ≠ "" then extras ++ [(k, v)] else extras) []) = _
  split_ifs with h
  · rfl
  · simp

/-- The effective value of a key in the extras dict is the value of its
last-numbered binding: if index `i` sets key `k` and no higher index up to
`n` reuses `k`, the lookup yields index `i`'s value setting. -/
theorem extra_fields_dget (env : String → Option String) (i : Nat) (k : String)
    (hi1 : 1 ≤ i) (hk : getenvStr env (extraKeyName i) "" = k) (hk0 : k ≠ "") :
    ∀ n, i ≤ n → (∀ j, i < j → j ≤ n → getenvStr env (extraKeyName j) "" ≠ k) →
      dget (extra_fields_from_env env n) k =
        some (getenvStr env (extraValueName i) "") := by
  intro n
  induction n with
  | zero => intro hin; omega
  | succ m ih =>
    intro hin hlater
    rw [extra_fields_from_env_succ, dget_append]
    by_cases hcase : i = m + 1
    · subst hcase
      rw [if_pos (by rw [hk]; exact hk0)]
      have hd : dget [(getenvStr env (extraKeyName (m + 1)) "",
          getenvStr env (extraValueName (m + 1)) "")] k =
          some (getenvStr env (extraValueName (m + 1)) "") := by
        rw [hk]
        simp [dget]
      rw [hd]
    · have hne : getenvStr env (extraKeyName (m + 1)) "" ≠ k :=
        hlater (m + 1) (by omega) (by omega)
      have hd : dget (if getenvStr env (extraKeyName (m + 1)) "" ≠ "" then
          [(getenvStr env (extraKeyName (m + 1)) "",
            getenvStr env (extraValueName (m + 1)) "")]
        else []) k = none := by
        split_ifs with h
        · simp [dget, hne]
        · rfl
      rw [hd]
      exact ih (by omega) (fun j hj1 hj2 => hlater j hj1 (by omega))

/-! ### The claims -/

/-- C3: with `MAX_RETRIES = 2` and a transport failure on both attempts,
`submit_with_retries` performs exactly 2 POST attempts with the linear
backoff `1 + attempt_number` (the sleep separating attempt 1 from attempt 2
lasts `1 + 1 = 2` units; the code also sleeps `1 + 2` after the final failed
attempt) and then propagates the last captured transport exception; a
received HTTP response — whatever its status — is returned immediately
after a single POST with no retry and no sleep. -/
theorem claim_C3_retry_exhaustion (post post2 : Nat → PostOutcome) (m1 m2 : String)
    (s : Int) (t : String) (h1 : post 1 = PostOutcome.exc m1)
    (h2 : post 2 = PostOutcome.exc m2) (h3 : post2 1 = PostOutcome.resp s t) :
    submit_with_retries 2 post = ⟨2, [1 + 1, 1 + 2], Except.error m2⟩ ∧
      submit_with_retries 2 post2 = ⟨1, [], Except.ok (s, t)⟩ := by
  have hr : (List.range (Int.toNat 2)).map (fun j => j + 1) = [1, 2] := rfl
  unfold submit_with_retries
  rw [hr]
  constructor
  · simp [submitAttempts, h1, h2]
  · simp [submitAttempts, h3]

/-- Witness for C3 at the concrete oracles. -/
theorem claim_C3_retry_exhaustion_witness :
    (postFailW 1 = PostOutcome.exc "boom1" ∧ postFailW 2 = PostOutcome.exc "boom2" ∧
      postOkW 1 = PostOutcome.resp 200 "okbody") ∧
      submit_with_retries 2 postFailW = ⟨2, [1 + 1, 1 + 2], Except.error "boom2"⟩ ∧
      submit_with_retries 2 postOkW = ⟨1, [], Except.ok (200, "okbody")⟩ :=
  ⟨⟨rfl, rfl, rfl⟩,
    claim_C3_retry_exhaustion postFailW postOkW "boom1" "boom2" 200 "okbody" rfl rfl rfl⟩

/-- C9: a zero or negative configured `MAX_RETRIES` makes the attempt range
`range(1, MAX_RETRIES+1)` empty, so the submit operation performs no POST
attempt and no sleep and raises the generic `RuntimeError("request failed")`
(modelled as the error message `"request failed"`), not a transport
exception. -/
theorem claim_C9_nonpositive_retries (maxRetries : Int) (post : Nat → PostOutcome)
    (h : maxRetries ≤ 0) :
    submit_with_retries maxRetries post = ⟨0, [], Except.error "request failed"⟩ := by
  unfold submit_with_retries
  rw [Int.toNat_of_nonpos h]
  rfl

/-- Witness for C9 at `MAX_RETRIES = -1`. -/
theorem claim_C9_nonpositive_retries_witness :
    (-1 : Int) ≤ 0 ∧
      submit_with_retries (-1) postOkW = ⟨0, [], Except.error "request failed"⟩ :=
  ⟨by decide, claim_C9_nonpositive_retries (-1) postOkW (by decide)⟩

/-- C4: `build_payload` emits a key `k` exactly when one of the non-empty
settings names it (`mayEmit`); every disjunct of `mayEmit` is guarded by the
relevant configuration value being non-empty, so no key is ever emitted on
behalf of an empty/unset field identifier — in particular an unset
`ENTRY_YES` contributes neither the yes-flag key nor its sentinel
companion, and likewise for the username field, legacy address field, done
flag, `fbzx` and `partialResponse`. -/
theorem claim_C4_no_key_for_unset (c : Config) (u a k : String) :
    k ∈ keysOf (build_payload c u a) ↔ mayEmit c u a k :=
  mem_keysOf_build_payload c u a k

/-- C5: with `FBZX = "xyz"` and an empty explicit partial-response
override, the built payload maps `partialResponse` to the literal string
`[null,null,"xyz"]`; a non-empty override is used verbatim instead. -/
theorem claim_C5_partial_response (c : Config) (u a : String) :
    (c.FBZX = "xyz" → c.PARTIAL_RESPONSE = "" →
      dget (build_payload c u a) "partialResponse" = some "[null,null,\"xyz\"]") ∧
      (∀ p, c.PARTIAL_RESPONSE = p → p ≠ "" →
        dget (build_payload c u a) "partialResponse" = some p) := by
  constructor
  · intro hf hp
    have hpr : prVal c = "[null,null,\"xyz\"]" := by
      unfold prVal
      rw [if_pos ⟨hp, by rw [hf]; decide⟩, hf]
      decide
    unfold build_payload
    rw [dget_stageProto_prkey c _ (by rw [hpr]; decide), hpr]
  · intro p hp hne
    have hpr : prVal c = p := by
      unfold prVal
      rw [if_neg (fun hcon => hne (hp ▸ hcon.1)), hp]
    unfold build_payload
    rw [dget_stageProto_prkey c _ (by rw [hpr]; exact hne), hpr]

/-- Witness for C5 at a concrete configuration. -/
theorem claim_C5_partial_response_witness :
    (cfgFbzx.FBZX = "xyz" ∧ cfgFbzx.PARTIAL_RESPONSE = "") ∧
      dget (build_payload cfgFbzx "" "addr") "partialResponse" =
        some "[null,null,\"xyz\"]" :=
  ⟨⟨rfl, rfl⟩, (claim_C5_partial_response cfgFbzx "" "addr").1 rfl rfl⟩

/-- C8: the session cookie mapping is obtained from the raw cookie string
exactly as the spec describes (split on `;`, trim, drop empties and pieces
without `=`, split each rest on the first `=` into a trimmed pair), and for
the input `"a=1; b=2"` the session presents exactly the cookies `a=1` and
`b=2`. -/
theorem claim_C8_cookie_parsing :
    (∀ s, mk_session_cookies s = cookieMappingSpec s) ∧
      mk_session_cookies "a=1; b=2" = [("a", "1"), ("b", "2")] := by
  constructor
  · intro s
    unfold mk_session_cookies cookieMappingSpec
    simp only [insertKV]
    rw [foldl_ite_append (fun p => strContains p '=')
      (fun p => (strTrim (splitFirstEq p).1, strTrim (splitFirstEq p).2))]
    rw [List.nil_append]
  · decide

/-- C2: an empty target URL, or no field-identifier-bearing setting
(username field, legacy address field, yes/done flags, multi-address list,
checkbox list, extra fields), or an empty record sequence makes the run
print an error and return before the log is opened and with zero POST
attempts performed. -/
theorem claim_C2_validation_gate (c : Config) (records : List String)
    (users : Nat → String) (post : Nat → Nat → PostOutcome)
    (h : c.FORM_RESPONSE_URL = "" ∨ hasFieldIdent c = false ∨ records = []) :
    main c records users post = ⟨true, false, [], 0⟩ := by
  unfold main
  by_cases h1 : c.FORM_RESPONSE_URL = ""
  · rw [if_pos h1]
  · rw [if_neg h1]
    by_cases h2 : hasFieldIdent c = false
    · rw [if_pos h2]
    · rw [if_neg h2]
      rcases h with h | h | h
      · exact absurd h h1
      · exact absurd h h2
      · rw [if_pos (by rw [h]; rfl)]

/-- Witness for C2: the default configuration has no URL. -/
theorem claim_C2_validation_gate_witness :
    (cfgBase.FORM_RESPONSE_URL = "" ∨ hasFieldIdent cfgBase = false ∨
        (["addr1"] : List String) = []) ∧
      main cfgBase ["addr1"] usersW postRecW = ⟨true, false, [], 0⟩ :=
  ⟨Or.inl rfl, claim_C2_validation_gate cfgBase ["addr1"] usersW postRecW (Or.inl rfl)⟩

/-- C1: once validation passes, the log holds exactly one row per input
record in record order, whatever each submission's outcome; a record whose
submission raises (including retry exhaustion) is logged with the `"ERR"`
status marker, a false success flag and the exception text truncated to 400
characters, and processing continues (every later record still gets its
row). -/
theorem claim_C1_one_row_per_record (c : Config) (records : List String)
    (users : Nat → String) (post : Nat → Nat → PostOutcome)
    (h1 : c.FORM_RESPONSE_URL ≠ "") (h2 : hasFieldIdent c = true)
    (h3 : records ≠ []) :
    (main c records users post).rows.length = records.length ∧
      ∀ j (hj : j < records.length)
        (hj2 : j < (main c records users post).rows.length),
        ((main c records users post).rows.get ⟨j, hj2⟩).address =
            records.get ⟨j, hj⟩ ∧
          ∀ m, (submit_with_retries c.MAX_RETRIES (post j)).result =
              Except.error m →
            ((main c records users post).rows.get ⟨j, hj2⟩).status_code = "ERR" ∧
              ((main c records users post).rows.get ⟨j, hj2⟩).ok = false ∧
              ((main c records users post).rows.get ⟨j, hj2⟩).resp_snippet =
                strTake 400 m := by
  rw [main_pass c records users post h1 h2 h3]
  exact runRows_spec c users post records

/-- Witness for C1: two records, the first hitting retry exhaustion. -/
theorem claim_C1_one_row_per_record_witness :
    (cfgRun.FORM_RESPONSE_URL ≠ "" ∧ hasFieldIdent cfgRun = true ∧
        (["addr1", "addr2"] : List String) ≠ []) ∧
      ((main cfgRun ["addr1", "addr2"] usersW postRecW).rows.length = 2 ∧
        ∀ j (hj : j < (["addr1", "addr2"] : List String).length)
          (hj2 : j < (main cfgRun ["addr1", "addr2"] usersW postRecW).rows.length),
          ((main cfgRun ["addr1", "addr2"] usersW postRecW).rows.get ⟨j, hj2⟩).address =
              (["addr1", "addr2"] : List String).get ⟨j, hj⟩ ∧
            ∀ m, (submit_with_retries cfgRun.MAX_RETRIES (postRecW j)).result =
                Except.error m →
              ((main cfgRun ["addr1", "addr2"] usersW postRecW).rows.get
                    ⟨j, hj2⟩).status_code = "ERR" ∧
                ((main cfgRun ["addr1", "addr2"] usersW postRecW).rows.get
                    ⟨j, hj2⟩).ok = false ∧
                ((main cfgRun ["addr1", "addr2"] usersW postRecW).rows.get
                    ⟨j, hj2⟩).resp_snippet = strTake 400 m) :=
  ⟨⟨by decide, by decide, by decide⟩,
    claim_C1_one_row_per_record cfgRun ["addr1", "addr2"] usersW postRecW
      (by decide) (by decide) (by decide)⟩

/-- C7: a submission that yields an HTTP response is logged with `ok` true
exactly when the status code lies in `[200, 400)` and with the status code
itself in the status column; a submission that ends in a transport failure
is always logged as a failure. -/
theorem claim_C7_success_classification (c : Config) (records : List String)
    (users : Nat → String) (post : Nat → Nat → PostOutcome)
    (h1 : c.FORM_RESPONSE_URL ≠ "") (h2 : hasFieldIdent c = true)
    (h3 : records ≠ []) (j : Nat) :
    ∀ (hj : j < records.length)
      (hj2 : j < (main c records users post).rows.length),
      (∀ s t, (submit_with_retries c.MAX_RETRIES (post j)).result =
          Except.ok (s, t) →
          (((main c records users post).rows.get ⟨j, hj2⟩).ok = true ↔
            (200 ≤ s ∧ s < 400)) ∧
            ((main c records users post).rows.get ⟨j, hj2⟩).status_code =
              toString s) ∧
        ∀ m, (submit_with_retries c.MAX_RETRIES (post j)).result = Except.error m →
          ((main c records users post).rows.get ⟨j, hj2⟩).ok = false := by
  rw [main_pass c records users post h1 h2 h3]
  intro hj hj2
  exact runRows_ok_spec c users post records j hj hj2

/-- Witness for C7: the second record receives a status-200 response. -/
theorem claim_C7_success_classification_witness :
    (cfgRun.FORM_RESPONSE_URL ≠ "" ∧ hasFieldIdent cfgRun = true ∧
        (["addr1", "addr2"] : List String) ≠ [] ∧
        (1 : Nat) < (["addr1", "addr2"] : List String).length ∧
        (1 : Nat) < (main cfgRun ["addr1", "addr2"] usersW postRecW).rows.length) ∧
      ((∀ s t, (submit_with_retries cfgRun.MAX_RETRIES (postRecW 1)).result =
            Except.ok (s, t) →
          (((main cfgRun ["addr1", "addr2"] usersW postRecW).rows.get
                ⟨1, by decide⟩).ok = true ↔ (200 ≤ s ∧ s < 400)) ∧
            ((main cfgRun ["addr1", "addr2"] usersW postRecW).rows.get
                ⟨1, by decide⟩).status_code = toString s) ∧
        ∀ m, (submit_with_retries cfgRun.MAX_RETRIES (postRecW 1)).result =
            Except.error m →
          ((main cfgRun ["addr1", "addr2"] usersW postRecW).rows.get
              ⟨1, by decide⟩).ok = false) :=
  ⟨⟨by decide, by decide, by decide, by decide, by decide⟩,
    claim_C7_success_classification cfgRun ["addr1", "addr2"] usersW postRecW
      (by decide) (by decide) (by decide) 1 (by decide) (by decide)⟩

/-- C6 counterexample: the claim quantifies over *every* configuration with
the toggle on and checkbox ids `["A","B"]`, but in a configuration whose
yes-flag identifier is also `A` the later yes-flag insertion overwrites the
checkbox binding: the payload maps `A` to `"Yes"`, not to the configured
checkbox value `"Completed"`. -/
theorem claim_C6_checkbox_counterexample :
    cfgCheckboxClash.AUTO_SENTINEL_FOR_CHECKBOX = true ∧
      cfgCheckboxClash.CHECKBOX_KEYS = ["A", "B"] ∧
      cfgCheckboxClash.CHECKBOX_VALUE = "Completed" ∧
      dget (build_payload cfgCheckboxClash "" "x") "A" = some "Yes" ∧
      some "Yes" ≠ some cfgCheckboxClash.CHECKBOX_VALUE := by
  decide

/-- C6 (amended): with the toggle on and checkbox ids `["A","B"]`, and
provided no setting inserted after the checkbox loop (yes/done flags and
their sentinels, extra-field keys) reuses `A`, `B` or their sentinel names,
the payload maps `A` and `B` to the configured checkbox value and
`A_sentinel`, `B_sentinel` to the empty string; with the toggle off, no
checkbox sentinel key appears at all provided no other configured
identifier names it. -/
theorem claim_C6_checkbox_amended (c : Config) (u a : String)
    (hkeys : c.CHECKBOX_KEYS = ["A", "B"])
    (hy : c.ENTRY_YES ∉ (["A", "B", "A_sentinel", "B_sentinel"] : List String))
    (hys : c.ENTRY_YES_SENTINEL ∉ (["A", "B", "A_sentinel", "B_sentinel"] : List String))
    (hd : c.ENTRY_DONE ∉ (["A", "B", "A_sentinel", "B_sentinel"] : List String))
    (hds : c.ENTRY_DONE_SENTINEL ∉ (["A", "B", "A_sentinel", "B_sentinel"] : List String))
    (hex : ∀ kv ∈ c.EXTRA_FIELDS,
      kv.1 ∉ (["A", "B", "A_sentinel", "B_sentinel"] : List String))
    (hu : c.ENTRY_USERNAME ∉ (["A_sentinel", "B_sentinel"] : List String))
    (hea : c.ENTRY_ADDRESS ∉ (["A_sentinel", "B_sentinel"] : List String))
    (haddr : ∀ x ∈ c.ADDRESS_KEYS, x ∉ (["A_sentinel", "B_sentinel"] : List String)) :
    (c.AUTO_SENTINEL_FOR_CHECKBOX = true →
      dget (build_payload c u a) "A" = some c.CHECKBOX_VALUE ∧
        dget (build_payload c u a) "A_sentinel" = some "" ∧
        dget (build_payload c u a) "B" = some c.CHECKBOX_VALUE ∧
        dget (build_payload c u a) "B_sentinel" = some "") ∧
      (c.AUTO_SENTINEL_FOR_CHECKBOX = false →
        "A_sentinel" ∉ keysOf (build_payload c u a) ∧
          "B_sentinel" ∉ keysOf (build_payload c u a)) := by
  constructor
  · intro htog
    have hlate : ∀ k : String, k ∈ (["A", "B", "A_sentinel", "B_sentinel"] : List String) →
        dget (build_payload c u a) k =
          dget (checkboxFold c.AUTO_SENTINEL_FOR_CHECKBOX c.CHECKBOX_VALUE
            c.CHECKBOX_KEYS (addrFold a c.ADDRESS_KEYS
              (stageAddr c a (stageUser c u [])))) k := by
      intro k hkS
      refine dget_build_payload_late c u a k ?_ ?_ ?_ ?_ ?_ ?_ ?_ ?_ ?_
      · rintro rfl; revert hkS; decide
      · rintro rfl; revert hkS; decide
      · rintro rfl; revert hkS; decide
      · rintro rfl; revert hkS; decide
      · intro v hv
        exact hex (k, v) hv hkS
      · intro hkey
        exact hd (by rw [hkey]; exact hkS)
      · intro hkey
        exact hds (by rw [hkey]; exact hkS)
      · intro hkey
        exact hy (by rw [hkey]; exact hkS)
      · intro hkey
        exact hys (by rw [hkey]; exact hkS)
    have hcb : ∀ k : String,
        dget (checkboxFold c.AUTO_SENTINEL_FOR_CHECKBOX c.CHECKBOX_VALUE
          c.CHECKBOX_KEYS (addrFold a c.ADDRESS_KEYS
            (stageAddr c a (stageUser c u [])))) k =
          match dget (cbList true c.CHECKBOX_VALUE ["A", "B"]) k with
          | some v => some v
          | none => dget (addrFold a c.ADDRESS_KEYS
              (stageAddr c a (stageUser c u []))) k := by
      intro k
      rw [htog, hkeys, checkboxFold_eq_append, dget_append]
    refine ⟨?_, ?_, ?_, ?_⟩
    · rw [hlate "A" (by decide), hcb "A"]
      have : dget (cbList true c.CHECKBOX_VALUE ["A", "B"]) "A" =
          some c.CHECKBOX_VALUE := by
        simp [cbList, cbAdd, dget]
      rw [this]
    · rw [hlate "A_sentinel" (by decide), hcb "A_sentinel"]
      have : dget (cbList true c.CHECKBOX_VALUE ["A", "B"]) "A_sentinel" =
          some "" := by
        simp [cbList, cbAdd, dget]
      rw [this]
    · rw [hlate "B" (by decide), hcb "B"]
      have : dget (cbList true c.CHECKBOX_VALUE ["A", "B"]) "B" =
          some c.CHECKBOX_VALUE := by
        simp [cbList, cbAdd, dget]
      rw [this]
    · rw [hlate "B_sentinel" (by decide), hcb "B_sentinel"]
      have : dget (cbList true c.CHECKBOX_VALUE ["A", "B"]) "B_sentinel" =
          some "" := by
        simp [cbList, cbAdd, dget]
      rw [this]
  · intro htog
    have habs : ∀ k : String, k ∈ (["A_sentinel", "B_sentinel"] : List String) →
        k ∉ keysOf (build_payload c u a) := by
      intro k hkS hmem
      have hkS2 : k = "A_sentinel" ∨ k = "B_sentinel" := by
        simpa using hkS
      have hkS4 : k ∈ (["A", "B", "A_sentinel", "B_sentinel"] : List String) := by
        rcases hkS2 with rfl | rfl <;> decide
      rcases (mem_keysOf_build_payload c u a k).1 hmem with
        ⟨_, _, hkeq⟩ | ⟨_, _, hkeq⟩ | hkeq | hkeq | ⟨ht, _, _, _⟩ | ⟨_, hkeq⟩ |
        ⟨_, _, hkeq⟩ | ⟨_, hkeq⟩ | ⟨_, _, hkeq⟩ | ⟨v, hv⟩ | ⟨_, hkeq⟩ |
        ⟨_, hkeq⟩ | ⟨_, hkeq⟩ | ⟨_, hkeq⟩
      · exact hu (by rw [← hkeq]; exact hkS)
      · exact hea (by rw [← hkeq]; exact hkS)
      · exact haddr k hkeq hkS
      · rw [hkeys] at hkeq
        have : k = "A" ∨ k = "B" := by simpa using hkeq
        rcases this with rfl | rfl <;> exact absurd hkS (by decide)
      · rw [htog] at ht
        exact absurd ht (by decide)
      · exact hy (by rw [← hkeq]; exact hkS4)
      · exact hys (by rw [← hkeq]; exact hkS4)
      · exact hd (by rw [← hkeq]; exact hkS4)
      · exact hds (by rw [← hkeq]; exact hkS4)
      · exact hex (k, v) hv hkS4
      · rcases hkS2 with rfl | rfl <;> exact absurd hkeq (by decide)
      · rcases hkS2 with rfl | rfl <;> exact absurd hkeq (by decide)
      · rcases hkS2 with rfl | rfl <;> exact absurd hkeq (by decide)
      · rcases hkS2 with rfl | rfl <;> exact absurd hkeq (by decide)
    exact ⟨habs "A_sentinel" (by decide), habs "B_sentinel" (by decide)⟩

/-- Witness for the amended C6 at a collision-free checkbox configuration. -/
theorem claim_C6_checkbox_amended_witness :
    (cfgCheckbox.CHECKBOX_KEYS = ["A", "B"] ∧
        cfgCheckbox.AUTO_SENTINEL_FOR_CHECKBOX = true) ∧
      dget (build_payload cfgCheckbox "" "x") "A" = some cfgCheckbox.CHECKBOX_VALUE ∧
        dget (build_payload cfgCheckbox "" "x") "A_sentinel" = some "" ∧
        dget (build_payload cfgCheckbox "" "x") "B" = some cfgCheckbox.CHECKBOX_VALUE ∧
        dget (build_payload cfgCheckbox "" "x") "B_sentinel" = some "" :=
  ⟨⟨rfl, rfl⟩,
    (claim_C6_checkbox_amended cfgCheckbox "" "x" rfl (by decide) (by decide)
        (by decide) (by decide) (by decide) (by decide) (by decide) (by decide)).1 rfl⟩

/-- C10 counterexample: the claim says a configured extra-field key is
always included with its own value setting (the empty string when that
setting is absent), but a later index configuring the same key overwrites
it: with `EXTRA_FIELD_1_KEY = x` (no value setting) and
`EXTRA_FIELD_2_KEY = x`, `EXTRA_FIELD_2_VALUE = v2`, the payload maps `x`
to `"v2"`, not to `""`. -/
theorem claim_C10_extra_fields_counterexample :
    envDup "EXTRA_FIELD_1_KEY" = some "x" ∧ envDup "EXTRA_FIELD_1_VALUE" = none ∧
      dget (build_payload (configFromEnv envDup) "" "addr") "x" = some "v2" ∧
      some "v2" ≠ some "" := by
  decide

/-- C10 (amended): for an extra-field index `i` in `1..20` whose key
setting is a non-empty `k`, provided no higher index up to 20 reuses `k`
and `k` is none of the always- or conditionally-emitted protocol parameter
names (`fvv`, `pageHistory`, `fbzx`, `partialResponse`), every built
payload maps `k` to `EXTRA_FIELD_i_VALUE` — and when that value setting is
absent, to the empty string: an emitted key with empty value, unlike the
other optional fields, which are omitted entirely when unset. -/
theorem claim_C10_extra_fields_amended (env : String → Option String)
    (u a : String) (i : Nat) (k : String) (hi1 : 1 ≤ i) (hi2 : i ≤ 20)
    (hk : getenvStr env (extraKeyName i) "" = k) (hk0 : k ≠ "")
    (hlater : ∀ j, i < j → j ≤ 20 → getenvStr env (extraKeyName j) "" ≠ k)
    (h1 : k ≠ "fvv") (h2 : k ≠ "pageHistory") (h3 : k ≠ "fbzx")
    (h4 : k ≠ "partialResponse") :
    dget (build_payload (configFromEnv env) u a) k =
        some (getenvStr env (extraValueName i) "") ∧
      (env (extraValueName i) = none →
        dget (build_payload (configFromEnv env) u a) k = some "") := by
  have hex : dget (extra_fields_from_env env 20) k =
      some (getenvStr env (extraValueName i) "") :=
    extra_fields_dget env i k hi1 hk hk0 20 hi2 hlater
  have hproj : (configFromEnv env).EXTRA_FIELDS = extra_fields_from_env env 20 := rfl
  have hmain : dget (build_payload (configFromEnv env) u a) k =
      some (getenvStr env (extraValueName i) "") := by
    unfold build_payload
    rw [dget_stageProto_ne _ _ k h1 h2 h3 h4, extrasFold_eq_append, dget_append,
      hproj, hex]
  refine ⟨hmain, fun hnone => ?_⟩
  rw [hmain]
  simp [getenvStr, hnone]

/-- Witness for the amended C10: index 3 configures key `k3` with no value
setting; the payload carries `k3` mapped to the empty string. -/
theorem claim_C10_extra_fields_amended_witness :
    (getenvStr envOne (extraKeyName 3) "" = "k3" ∧ envOne (extraValueName 3) = none) ∧
      dget (build_payload (configFromEnv envOne) "" "addr") "k3" =
        some (getenvStr envOne (extraValueName 3) "") ∧
      (envOne (extraValueName 3) = none →
        dget (build_payload (configFromEnv envOne) "" "addr") "k3" = some "") :=
  ⟨⟨rfl, rfl⟩,
    claim_C10_extra_fields_amended envOne "" "addr" 3 "k3" (by decide) (by decide)
      (by decide) (by decide)
      (by intro j hj1 hj2; interval_cases j <;> decide)
      (by decide) (by decide) (by decide) (by decide)⟩

end Form
